import Mathlib

/-!
Verification development for the wildlife-tracking client.

Shallow embedding of the telemetry-handling core of the repository:

* `TrackerMain.*` models `DeviceLocationTracker` from the main tracker page
  (src/unnamed/part_004): the `isValidLocation` validator, the handler of the
  `devices/{id}/locations` subscription, the travel-path effect, the derived
  metrics `calculatePathDistance` and `averageSpeed`, and `formatTime`.
* `TrackerAlt.*` models the variant tracker page (src/unnamed/part_005), whose
  `averageSpeed` looks elapsed time up in the location history.
* `FirebaseDB.*` models the database helper module (src/unnamed/part_006):
  `listenToRealtimeData`, `getLocationHistory`, `getDeviceAlerts` and the
  haversine `calculateDistance`.

JavaScript numbers are modelled as `Rat` (the code does exact-looking
arithmetic on them; no rounding behaviour is relied on by any claim), raw
store payloads as a small JSON-like value type, and absent record fields as
an explicit `undef` value.  External library calls (the Google Maps
spherical distance used by the path metrics) are modelled as an explicit
function parameter, since the repository treats them as external
collaborators.  JavaScript string formatting (`toLocaleString`) is opaque;
`formatTime` is modelled up to the value it hands to the formatter.
-/

/-- Primitive JavaScript value occurring in a raw store record field:
a number, a string, a boolean, `null`, or an absent field (`undefined`). -/
inductive JVal where
  | undef : JVal
  | null : JVal
  | num : Rat → JVal
  | str : String → JVal
  | jbool : Bool → JVal
deriving DecidableEq

/-- Whether a raw field value is a JavaScript number
(the `typeof x === "number"` test of the source). -/
def JVal.isNum : JVal → Bool
  | .num _ => true
  | _ => false

/-- Raw location payload as stored under `devices/{id}/locations/{key}`:
a flat record whose fields may each be missing or of the wrong type.
Only the fields the claims touch are modelled. -/
structure RawRecord where
  lat : JVal
  lng : JVal
  timestamp : JVal
deriving DecidableEq

/-- An arbitrary untyped value delivered by the store: either an object
(modelled as a `RawRecord`) or a non-object primitive. -/
inductive RawVal where
  | obj : RawRecord → RawVal
  | prim : JVal → RawVal
deriving DecidableEq

/-- Whether a delivered value is a (truthy) JavaScript object. -/
def RawVal.isObj : RawVal → Bool
  | .obj _ => true
  | .prim _ => false

/-- Numeric timestamp of a delivered value, when it is an object whose
`timestamp` field is a number. -/
def RawVal.tsVal : RawVal → Option Rat
  | .obj r => match r.timestamp with
    | .num q => some q
    | _ => none
  | .prim _ => none

/-- Timestamp key used by the sort comparators
(`(a, b) => b.timestamp - a.timestamp`).  The comparator is only
meaningful on records with numeric timestamps (on anything else the
JavaScript subtraction yields `NaN` and `Array.prototype.sort` is
implementation-defined); a junk default of `0` stands for that
unspecified case, and every sortedness theorem that speaks about real
timestamps restricts itself to numeric-timestamp records. -/
def RawVal.tsKey (v : RawVal) : Rat := (v.tsVal).getD 0

instance instDecRelKeyDesc {α : Type} (key : α → Rat) :
    DecidableRel (fun a b : α => key b ≤ key a) :=
  fun a b => inferInstanceAs (Decidable (key b ≤ key a))

/-- Stable sort of a list by non-increasing (newest-first) key, modelling
`Array.prototype.sort` with comparator `(a, b) => key b - key a`
(JavaScript sort is required to be stable). -/
def sortByKeyDesc {α : Type} (key : α → Rat) (l : List α) : List α :=
  List.insertionSort (fun a b => key b ≤ key a) l

theorem sorted_sortByKeyDesc {α : Type} (key : α → Rat) (l : List α) :
    List.Sorted (fun a b => key b ≤ key a) (sortByKeyDesc key l) := by
  haveI : IsTotal α (fun a b => key b ≤ key a) := ⟨fun a b => le_total _ _⟩
  haveI : IsTrans α (fun a b => key b ≤ key a) := ⟨fun _ _ _ h1 h2 => le_trans h2 h1⟩
  exact List.sorted_insertionSort _ l

theorem perm_sortByKeyDesc {α : Type} (key : α → Rat) (l : List α) :
    (sortByKeyDesc key l).Perm l :=
  List.perm_insertionSort _ l

/-- Result of `formatTime`: either the literal string `N/A`, or a date
rendering of the given adjusted epoch value (`new Date(t).toLocaleString()`,
whose string form is opaque here and is kept as the numeric argument). -/
inductive TimeDisplay where
  | na : TimeDisplay
  | display : Rat → TimeDisplay
deriving DecidableEq

/-- Model of `formatTime` (identical in src/unnamed/part_004 line 126 and
src/unnamed/part_005 line 86): a missing timestamp and the falsy value `0`
yield the string `N/A`; otherwise the value is adjusted by the
magnitude heuristic `timestamp > 1e12 ? timestamp / 1000 : timestamp`
and handed to the date formatter. -/
def formatTime (timestamp : Option Rat) : TimeDisplay :=
  match timestamp with
  | none => .na
  | some t =>
    if t = 0 then .na
    else .display (if t > 10 ^ 12 then t / 1000 else t)

namespace TrackerMain

/-- Model of `isValidLocation` (src/unnamed/part_004 line 51): the payload
must be truthy and its `lat` and `lng` fields must both be numbers.
A primitive payload is either falsy or has no `lat` property, so it
fails the test either way. -/
def isValidLocation : RawVal → Bool
  | .obj r => r.lat.isNum && r.lng.isNum
  | .prim _ => false

/-- The component state touched by the locations subscription handler:
the `locationHistory` and `currentLocation` React state cells. -/
structure TrackerState where
  locationHistory : List RawVal
  currentLocation : Option RawVal
deriving DecidableEq

/-- Valid entries of a locations snapshot: `Object.values(snapshot.val() || {})`
followed by `.filter(isValidLocation)`.  A snapshot is modelled as an
association list of store keys to values (`none` for a null snapshot);
`Object.values` drops the keys, which are pairwise distinct in any
JavaScript object. -/
def validEntries (snap : Option (List (String × RawVal))) : List RawVal :=
  ((snap.getD []).map Prod.snd).filter isValidLocation

/-- Model of the handler installed by `onValue(locationsRef, ...)`
(src/unnamed/part_004 lines 331 to 347): take the snapshot value (defaulting
a null snapshot to the empty object), keep the valid locations, sort them
newest-first by the comparator `(a, b) => b.timestamp - a.timestamp`,
replace `locationHistory` with the result, and, when the result is
non-empty, replace `currentLocation` with its first element. -/
def onLocationsValue (snap : Option (List (String × RawVal)))
    (st : TrackerState) : TrackerState :=
  let locationsArray := sortByKeyDesc RawVal.tsKey (validEntries snap)
  { locationHistory := locationsArray
    currentLocation := match locationsArray with
      | [] => st.currentLocation
      | v :: _ => some v }

end TrackerMain

/-- A travel-path point `{lat, lng}` as stored in the `travelPath` state. -/
abbrev Point : Type := Rat × Rat

namespace TrackerMain

/-- The coordinate fields of a `LocationData` state value
(`myLocation` or `currentLocation`), each possibly absent. -/
structure LocationFields where
  lat : Option Rat
  lng : Option Rat
deriving DecidableEq

/-- Model of the travel-path effect (src/unnamed/part_004 lines 366 to 386),
run on each location update.  `dist` stands for the external
`google.maps.geometry.spherical.computeDistanceBetween` (meters).  The
effect does nothing unless tracking is on and both coordinates are truthy
(present and nonzero, the `locationToTrack?.lat && locationToTrack?.lng`
guard); it then appends the point when the path is empty or the point is
more than 10 meters from the last recorded point. -/
def travelPathEffect (dist : Point → Point → Rat) (isTracking : Bool)
    (loc : Option LocationFields) (prev : List Point) : List Point :=
  if isTracking = false then prev
  else match loc with
    | none => prev
    | some l =>
      match l.lat, l.lng with
      | some la, some ln =>
        if la = 0 ∨ ln = 0 then prev
        else match prev.getLast? with
          | none => prev ++ [(la, ln)]
          | some lastPt =>
            if 10 < dist lastPt (la, ln) then prev ++ [(la, ln)] else prev
      | _, _ => prev

/-- Model of `toggleTracking` (src/unnamed/part_004 lines 218 to 232):
stopping clears the path; starting seeds it with the current location
when that location has truthy coordinates. -/
def toggleTracking (isTracking : Bool) (loc : Option LocationFields)
    (path : List Point) : Bool × List Point :=
  if isTracking then (false, [])
  else
    (true,
      match loc with
      | some l =>
        match l.lat, l.lng with
        | some la, some ln => if la = 0 ∨ ln = 0 then path else [(la, ln)]
        | _, _ => path
      | none => path)

/-- Model of `calculatePathDistance` (src/unnamed/part_004 lines 389 to 400):
`0` for fewer than two points, otherwise the loop
`for (i = 1; i < n; i++) total += dist(path[i-1], path[i])`,
with `dist` the external Google Maps spherical distance. -/
def calculatePathDistance (dist : Point → Point → Rat) (path : List Point) : Rat :=
  if path.length < 2 then 0
  else (path.zip path.tail).foldl (fun acc pq => acc + dist pq.1 pq.2) 0

/-- Model of `averageSpeed` (src/unnamed/part_004 lines 402 to 413): for two
or more points, elapsed time is estimated as 5 seconds per recorded point
(`(travelPath.length * 5) / 3600` hours), and the result is
`calculatePathDistance / 1000 / timeDiff` in km/h, guarded by
`timeDiff <= 0`. -/
def averageSpeed (dist : Point → Point → Rat) (path : List Point) : Rat :=
  if path.length < 2 then 0
  else
    let timeDiff : Rat := ((path.length : Rat) * 5) / 3600
    if timeDiff ≤ 0 then 0
    else calculatePathDistance dist path / 1000 / timeDiff

end TrackerMain

namespace TrackerAlt

/-- A `LocationData` entry of the variant tracker page, with each field
possibly absent at runtime. -/
structure HistLocation where
  lat : Option Rat
  lng : Option Rat
  timestamp : Option Rat
deriving DecidableEq

/-- The strict-equality match `loc.lat === p.lat && loc.lng === p.lng`
used by the history lookups in the variant `averageSpeed`. -/
def matchesPoint (p : Point) (l : HistLocation) : Bool :=
  l.lat == some p.1 && l.lng == some p.2

/-- Model of the variant `averageSpeed` (src/unnamed/part_005 lines 279
to 296): returns `0` for fewer than two points or an empty history;
otherwise looks the first and last path points up in `locationHistory`,
returns `0` when either lookup fails or yields a falsy timestamp, and
otherwise divides the path distance by the raw timestamp difference over
3600, returning `0` when that difference is not positive. -/
def averageSpeed (dist : Point → Point → Rat) (path : List Point)
    (locationHistory : List HistLocation) : Rat :=
  if path.length < 2 ∨ locationHistory.isEmpty then 0
  else
    match path.head?, path.getLast? with
    | some p0, some pn =>
      match (locationHistory.find? (matchesPoint p0)).bind (fun r => r.timestamp),
            (locationHistory.find? (matchesPoint pn)).bind (fun r => r.timestamp) with
      | some tf, some tl =>
        if tf = 0 ∨ tl = 0 then 0
        else
          let timeDiff := (tl - tf) / 3600
          if timeDiff ≤ 0 then 0
          else TrackerMain.calculatePathDistance dist path / 1000 / timeDiff
      | _, _ => 0
    | _, _ => 0

end TrackerAlt

namespace FirebaseDB

/-- Model of the snapshot handler inside `listenToRealtimeData`
(src/unnamed/part_006 lines 83 to 113): the value the callback receives.
The handler passes the snapshot value through unchanged when it is a
truthy object (`data && typeof data === 'object'`) and reports `null`
otherwise; the surrounding `try/catch` means it never throws. -/
def listenCallbackArg (data : RawVal) : Option RawVal :=
  if data.isObj then some data else none

/-- A location history record as typed in the database module
(src/unnamed/part_006): `lat`, `lng` and `timestamp` are required numbers. -/
structure LocationRecord where
  lat : Rat
  lng : Rat
  timestamp : Rat
deriving DecidableEq

/-- An alert record as typed in the database module. -/
structure AlertRecord where
  status : String
  timestamp : Rat
deriving DecidableEq

/-- Model of `getLocationHistory` (src/unnamed/part_006 lines 318 to 345):
collect the child records in snapshot iteration order, sort them
newest-first by `(a, b) => b.timestamp - a.timestamp`, and return
`slice(0, limit)`. -/
def getLocationHistory (records : List LocationRecord) (limit : Nat) :
    List LocationRecord :=
  (sortByKeyDesc (fun r => r.timestamp) records).take limit

/-- Model of `getDeviceAlerts` (src/unnamed/part_006 lines 350 to 376):
same shape as `getLocationHistory` for the alerts of a device. -/
def getDeviceAlerts (alerts : List AlertRecord) (limit : Nat) :
    List AlertRecord :=
  (sortByKeyDesc (fun a => a.timestamp) alerts).take limit

/-- Degrees to radians, model of `deg2rad` (src/unnamed/part_006 line 445). -/
noncomputable def deg2rad (deg : Real) : Real := deg * (Real.pi / 180)

/-- Real model of JavaScript `Math.atan2(y, x)` on non-NaN inputs. -/
noncomputable def atan2 (y x : Real) : Real :=
  if 0 < x then Real.arctan (y / x)
  else if x < 0 ∧ 0 ≤ y then Real.arctan (y / x) + Real.pi
  else if x < 0 then Real.arctan (y / x) - Real.pi
  else if 0 < y then Real.pi / 2
  else if y < 0 then -(Real.pi / 2)
  else 0

/-- Model of `calculateDistance` (src/unnamed/part_006 lines 428 to 443):
the haversine great-circle distance in kilometers with Earth radius
`R = 6371`, written exactly as in the source. -/
noncomputable def calculateDistance (lat1 lon1 lat2 lon2 : Real) : Real :=
  let R : Real := 6371
  let dLat := deg2rad (lat2 - lat1)
  let dLon := deg2rad (lon2 - lon1)
  let a := Real.sin (dLat / 2) * Real.sin (dLat / 2) +
    Real.cos (deg2rad lat1) * Real.cos (deg2rad lat2) *
    (Real.sin (dLon / 2) * Real.sin (dLon / 2))
  let c := 2 * atan2 (Real.sqrt a) (Real.sqrt (1 - a))
  R * c

end FirebaseDB

/-- Specification-side path distance, following the spec words: the sum of
the distances between consecutive points of the sequence.  Used to compare
the implementation `TrackerMain.calculatePathDistance` against. -/
def specPathDistance (dist : Point → Point → Rat) (path : List Point) : Rat :=
  ((path.zip path.tail).map (fun pq => dist pq.1 pq.2)).sum

/-- Specification-side average speed, following the spec words: path
distance divided by the elapsed wall-clock time between the first and the
last point of the sequence, and `0` when that elapsed time is not
positive.  Stated in the same units as the implementation (meters from
`dist`, seconds for the timestamps, km/h for the result) so that the two
are directly comparable. -/
def specAverageSpeed (dist : Point → Point → Rat) (path : List Point)
    (tFirst tLast : Rat) : Rat :=
  if tLast - tFirst ≤ 0 then 0
  else TrackerMain.calculatePathDistance dist path / 1000 / ((tLast - tFirst) / 3600)

/-- Specification-side haversine great-circle distance with Earth radius
6371 km, following the spec words, with the half-angle sine squared
written as a power.  Used to compare `FirebaseDB.calculateDistance`
against. -/
noncomputable def specHaversine (lat1 lon1 lat2 lon2 : Real) : Real :=
  let R : Real := 6371
  let dLat := FirebaseDB.deg2rad (lat2 - lat1)
  let dLon := FirebaseDB.deg2rad (lon2 - lon1)
  let a := Real.sin (dLat / 2) ^ 2 +
    Real.cos (FirebaseDB.deg2rad lat1) * Real.cos (FirebaseDB.deg2rad lat2) *
    Real.sin (dLon / 2) ^ 2
  R * (2 * FirebaseDB.atan2 (Real.sqrt a) (Real.sqrt (1 - a)))

instance instDecRelKeyAsc {α : Type} (key : α → Rat) :
    DecidableRel (fun a b : α => key a ≤ key b) :=
  fun a b => inferInstanceAs (Decidable (key a ≤ key b))

theorem foldl_add_eq_sum {α : Type} (f : α → Rat) (l : List α) (init : Rat) :
    l.foldl (fun acc x => acc + f x) init = init + (l.map f).sum := by
  induction l generalizing init with
  | nil => simp
  | cons a tail ih => simp [ih, add_assoc]

/-- C8: `formatTime` resolves the seconds-versus-milliseconds ambiguity by
the magnitude threshold `1e12`: a timestamp above the threshold is treated
as milliseconds and divided by `1000` before being handed to the display,
and a truthy timestamp at or below the threshold is handed over unchanged
(treated as seconds).  The falsy timestamp `0` is excluded here because it
is rendered `N/A` (see claim C10). -/
theorem C8_formatTime_threshold (t : Rat) :
    ((10 : Rat) ^ 12 < t → formatTime (some t) = .display (t / 1000))
    ∧ (t ≠ 0 → t ≤ (10 : Rat) ^ 12 → formatTime (some t) = .display t) := by
  constructor
  · intro h
    have ht : t ≠ 0 := by
      have : (0 : Rat) < t := lt_trans (by positivity) h
      exact ne_of_gt this
    simp [formatTime, ht, h]
  · intro h0 hle
    have hng : ¬ ((10 : Rat) ^ 12 < t) := not_lt.mpr hle
    simp [formatTime, h0, hng]

/-- Witness for C8 at the concrete timestamps `2e12` and `5`. -/
theorem C8_formatTime_threshold_witness :
    formatTime (some ((2 : Rat) * 10 ^ 12)) = .display ((2 : Rat) * 10 ^ 12 / 1000)
    ∧ formatTime (some (5 : Rat)) = .display 5 :=
  ⟨(C8_formatTime_threshold _).1 (by norm_num),
   (C8_formatTime_threshold _).2 (by norm_num) (by norm_num)⟩

/-- C10: `formatTime` renders a missing timestamp and the timestamp `0`
(which is falsy in JavaScript, so the epoch value is treated as absent) as
the string `N/A` rather than as a formatted date. -/
theorem C10_formatTime_absent :
    formatTime none = TimeDisplay.na ∧ formatTime (some 0) = TimeDisplay.na := by
  exact ⟨rfl, by simp [formatTime]⟩

/-- C9: `getLocationHistory` and `getDeviceAlerts` return at most `limit`
records, sorted newest-first (non-increasing by timestamp). -/
theorem C9_fetch_limit_sorted (records : List FirebaseDB.LocationRecord)
    (alerts : List FirebaseDB.AlertRecord) (limit : Nat) :
    (FirebaseDB.getLocationHistory records limit).length ≤ limit
    ∧ List.Sorted (fun a b : FirebaseDB.LocationRecord => b.timestamp ≤ a.timestamp)
        (FirebaseDB.getLocationHistory records limit)
    ∧ (FirebaseDB.getDeviceAlerts alerts limit).length ≤ limit
    ∧ List.Sorted (fun a b : FirebaseDB.AlertRecord => b.timestamp ≤ a.timestamp)
        (FirebaseDB.getDeviceAlerts alerts limit) := by
  refine ⟨?_, ?_, ?_, ?_⟩
  · exact List.length_take_le limit _
  · have h := sorted_sortByKeyDesc (fun r : FirebaseDB.LocationRecord => r.timestamp) records
    exact h.sublist (List.take_sublist _ _)
  · exact List.length_take_le limit _
  · have h := sorted_sortByKeyDesc (fun a : FirebaseDB.AlertRecord => a.timestamp) alerts
    exact h.sublist (List.take_sublist _ _)

/-- C6: the path distance is exactly the sum of the distances between
consecutive points of the sequence (`specPathDistance`), it is `0` for
fewer than two points, and it is `0` on a two-element path of identical
points whenever the distance primitive vanishes on equal points; the
distance primitive of `calculatePathDistance` is the external Google Maps
spherical distance, modelled as the parameter `dist`.  The repository
great-circle distance `calculateDistance` coincides with the haversine
formula with Earth radius 6371 km (`specHaversine`) and vanishes on
identical points, so instantiating `dist` with it gives a vanishing
distance for `[p, p]`. -/
theorem C6_path_distance (dist : Point → Point → Rat) (path : List Point)
    (p : Point) (lat1 lon1 lat2 lon2 lat lon : Real) :
    TrackerMain.calculatePathDistance dist path = specPathDistance dist path
    ∧ (path.length < 2 → TrackerMain.calculatePathDistance dist path = 0)
    ∧ (dist p p = 0 → TrackerMain.calculatePathDistance dist [p, p] = 0)
    ∧ FirebaseDB.calculateDistance lat1 lon1 lat2 lon2
        = specHaversine lat1 lon1 lat2 lon2
    ∧ FirebaseDB.calculateDistance lat lon lat lon = 0 := by
  refine ⟨?_, ?_, ?_, ?_, ?_⟩
  · by_cases h : path.length < 2
    · rw [TrackerMain.calculatePathDistance, if_pos h]
      cases path with
      | nil => simp [specPathDistance]
      | cons a tail =>
        cases tail with
        | nil => simp [specPathDistance]
        | cons b tail2 => simp [List.length_cons] at h; omega
    · rw [TrackerMain.calculatePathDistance, if_neg h]
      simpa using foldl_add_eq_sum (fun pq : Point × Point => dist pq.1 pq.2)
        (path.zip path.tail) 0
  · intro h
    rw [TrackerMain.calculatePathDistance, if_pos h]
  · intro h
    simp [TrackerMain.calculatePathDistance, h]
  · simp only [FirebaseDB.calculateDistance, specHaversine, pow_two]
  · simp [FirebaseDB.calculateDistance, FirebaseDB.deg2rad, FirebaseDB.atan2,
      sub_self, Real.sqrt_eq_zero']

/-- Witness for C6 at concrete inputs: a one-point path, a repeated-point
path with a vanishing distance primitive, and the repository haversine at
an identical pair of coordinates. -/
theorem C6_path_distance_witness :
    TrackerMain.calculatePathDistance (fun _ _ => (0 : Rat)) [((0 : Rat), (0 : Rat))] = 0
    ∧ TrackerMain.calculatePathDistance (fun _ _ => (0 : Rat))
        [((0 : Rat), (0 : Rat)), ((0 : Rat), (0 : Rat))] = 0
    ∧ FirebaseDB.calculateDistance 1 2 1 2 = 0 :=
  ⟨(C6_path_distance (fun _ _ => (0 : Rat)) [((0 : Rat), (0 : Rat))]
      ((0 : Rat), (0 : Rat)) 1 2 3 4 1 2).2.1 (by decide),
   (C6_path_distance (fun _ _ => (0 : Rat)) [((0 : Rat), (0 : Rat))]
      ((0 : Rat), (0 : Rat)) 1 2 3 4 1 2).2.2.1 rfl,
   (C6_path_distance (fun _ _ => (0 : Rat)) [((0 : Rat), (0 : Rat))]
      ((0 : Rat), (0 : Rat)) 1 2 3 4 1 2).2.2.2.2⟩

/-- C1 counterexample: a snapshot holding two valid records with timestamps
1 and 2 produces a location history sorted newest-first, which is not
non-decreasing by timestamp, refuting the claim as stated. -/
theorem C1_counterexample :
    ¬ List.Sorted (fun a b : RawVal => a.tsKey ≤ b.tsKey)
      ((TrackerMain.onLocationsValue
        (some [("k1", .obj ⟨.num 1, .num 1, .num 1⟩),
               ("k2", .obj ⟨.num 2, .num 2, .num 2⟩)])
        ⟨[], none⟩).locationHistory) := by decide

/-- C1 amended: for every snapshot, the handler replaces the location
history with a permutation of the valid snapshot entries (each of which
comes from a distinct store key, so no identity key occurs twice), sorted
non-increasing (newest-first) by the timestamp sort key — not
non-decreasing as claimed. -/
theorem C1_history_perm_sorted_desc (snap : Option (List (String × RawVal)))
    (st : TrackerMain.TrackerState) :
    ((TrackerMain.onLocationsValue snap st).locationHistory).Perm
        (TrackerMain.validEntries snap)
    ∧ List.Sorted (fun a b : RawVal => b.tsKey ≤ a.tsKey)
        ((TrackerMain.onLocationsValue snap st).locationHistory) :=
  ⟨perm_sortByKeyDesc RawVal.tsKey (TrackerMain.validEntries snap),
   sorted_sortByKeyDesc RawVal.tsKey (TrackerMain.validEntries snap)⟩

/-- C3 counterexample: with five entries already in the Timeline, an empty
(null) snapshot from the history subscription clears the location history
instead of leaving it unchanged, refuting the claim. -/
theorem C3_counterexample :
    (TrackerMain.onLocationsValue none
      ⟨[.obj ⟨.num 1, .num 1, .num 5⟩, .obj ⟨.num 1, .num 1, .num 4⟩,
        .obj ⟨.num 1, .num 1, .num 3⟩, .obj ⟨.num 1, .num 1, .num 2⟩,
        .obj ⟨.num 1, .num 1, .num 1⟩], none⟩).locationHistory = []
    ∧ ([.obj ⟨.num 1, .num 1, .num 5⟩, .obj ⟨.num 1, .num 1, .num 4⟩,
        .obj ⟨.num 1, .num 1, .num 3⟩, .obj ⟨.num 1, .num 1, .num 2⟩,
        .obj ⟨.num 1, .num 1, .num 1⟩] : List RawVal).length = 5 := by decide

/-- C3 amended: an empty or non-existent snapshot (a null snapshot value or
an empty object) clears the Timeline — `locationHistory` becomes the empty
list — while `currentLocation` is left unchanged. -/
theorem C3_empty_snapshot_clears (st : TrackerMain.TrackerState) :
    (TrackerMain.onLocationsValue none st).locationHistory = []
    ∧ (TrackerMain.onLocationsValue none st).currentLocation = st.currentLocation
    ∧ (TrackerMain.onLocationsValue (some []) st).locationHistory = []
    ∧ (TrackerMain.onLocationsValue (some []) st).currentLocation
        = st.currentLocation :=
  ⟨rfl, rfl, rfl, rfl⟩

/-- C4 counterexample: the malformed record with a string latitude and a
numeric longitude fails `isValidLocation` and is dropped from the produced
location history, instead of being kept with the bad field defaulted and
flagged as the claim states. -/
theorem C4_counterexample :
    TrackerMain.isValidLocation (.obj ⟨.str "bad", .num 12, .undef⟩) = false
    ∧ (TrackerMain.onLocationsValue
        (some [("k", .obj ⟨.str "bad", .num 12, .undef⟩)])
        ⟨[], none⟩).locationHistory = [] := by decide

/-- C4 amended: the realtime listener never throws and hands the callback
`null` exactly for non-object payloads, passing object payloads through
unchanged; the location validator accepts an object payload exactly when
its `lat` and `lng` fields are numbers; and a snapshot record failing the
validator is dropped from the location history (there is no defaulting and
no `wasDefaulted` flag anywhere in the code). -/
theorem C4_malformed_records_dropped (v : RawVal) (r : RawRecord) :
    (FirebaseDB.listenCallbackArg v = none ↔ v.isObj = false)
    ∧ TrackerMain.isValidLocation (.obj r) = (r.lat.isNum && r.lng.isNum)
    ∧ (TrackerMain.isValidLocation (.obj r) = false →
        ∀ (st : TrackerMain.TrackerState) (k : String),
          (TrackerMain.onLocationsValue (some [(k, .obj r)]) st).locationHistory
            = []) := by
  refine ⟨?_, rfl, ?_⟩
  · cases v with
    | obj r2 => simp [FirebaseDB.listenCallbackArg, RawVal.isObj]
    | prim p => simp [FirebaseDB.listenCallbackArg, RawVal.isObj]
  · intro h st k
    simp [TrackerMain.onLocationsValue, TrackerMain.validEntries, List.filter, h,
      sortByKeyDesc, List.insertionSort]

/-- Witness for C4 at a null payload and the malformed record
`lat = "bad"`, `lng = 12`. -/
theorem C4_malformed_records_dropped_witness :
    (FirebaseDB.listenCallbackArg (.prim .null) = none
      ↔ RawVal.isObj (.prim .null) = false)
    ∧ (TrackerMain.onLocationsValue
        (some [("k", .obj ⟨.str "bad", .num 12, .undef⟩)])
        ⟨[], none⟩).locationHistory = [] :=
  ⟨(C4_malformed_records_dropped (.prim .null) ⟨.str "bad", .num 12, .undef⟩).1,
   (C4_malformed_records_dropped (.prim .null)
      ⟨.str "bad", .num 12, .undef⟩).2.2 (by decide) ⟨[], none⟩ "k"⟩

/-- C2 counterexample: a first update delivers a valid record at timestamp
100 (which becomes current), a second update delivers only a record at
timestamp 90; the reported current location is then the timestamp-90
record although the maximum-timestamp entry delivered across the feeds is
the timestamp-100 record, refuting the claim as stated. -/
theorem C2_counterexample :
    (TrackerMain.onLocationsValue (some [("a", .obj ⟨.num 1, .num 1, .num 100⟩)])
        ⟨[], none⟩).currentLocation = some (.obj ⟨.num 1, .num 1, .num 100⟩)
    ∧ (TrackerMain.onLocationsValue (some [("b", .obj ⟨.num 2, .num 2, .num 90⟩)])
        (TrackerMain.onLocationsValue
          (some [("a", .obj ⟨.num 1, .num 1, .num 100⟩)])
          ⟨[], none⟩)).currentLocation = some (.obj ⟨.num 2, .num 2, .num 90⟩)
    ∧ RawVal.tsKey (.obj ⟨.num 2, .num 2, .num 90⟩)
        < RawVal.tsKey (.obj ⟨.num 1, .num 1, .num 100⟩) := by decide

/-- C2 amended: after an update, the current location equals a
maximum-timestamp entry of that snapshot alone — the latest non-empty
snapshot wins wholesale, there is no merge across feeds; an update with no
valid entries leaves the current location unchanged. -/
theorem C2_current_from_latest_snapshot (snap : Option (List (String × RawVal)))
    (st : TrackerMain.TrackerState) :
    (TrackerMain.validEntries snap = [] →
      (TrackerMain.onLocationsValue snap st).currentLocation = st.currentLocation)
    ∧ (TrackerMain.validEntries snap ≠ [] →
      ∃ c, (TrackerMain.onLocationsValue snap st).currentLocation = some c
        ∧ c ∈ TrackerMain.validEntries snap
        ∧ ∀ v ∈ TrackerMain.validEntries snap, v.tsKey ≤ c.tsKey) := by
  constructor
  · intro h
    simp [TrackerMain.onLocationsValue, h, sortByKeyDesc, List.insertionSort]
  · intro h
    have hperm := perm_sortByKeyDesc RawVal.tsKey (TrackerMain.validEntries snap)
    have hsorted := sorted_sortByKeyDesc RawVal.tsKey (TrackerMain.validEntries snap)
    have hne : sortByKeyDesc RawVal.tsKey (TrackerMain.validEntries snap) ≠ [] := by
      intro he
      apply h
      have h2 := hperm.symm
      rw [he] at h2
      exact h2.eq_nil
    obtain ⟨c, rest, hct⟩ := List.exists_cons_of_ne_nil hne
    refine ⟨c, ?_, ?_, ?_⟩
    · simp [TrackerMain.onLocationsValue, hct]
    · have hcmem : c ∈ sortByKeyDesc RawVal.tsKey (TrackerMain.validEntries snap) := by
        rw [hct]; exact List.mem_cons_self c rest
      exact hperm.subset hcmem
    · intro v hv
      have hvmem : v ∈ c :: rest := by
        have hvs : v ∈ sortByKeyDesc RawVal.tsKey (TrackerMain.validEntries snap) :=
          hperm.symm.subset hv
        rw [hct] at hvs
        exact hvs
      rcases List.mem_cons.mp hvmem with h1 | h2
      · exact h1 ▸ le_refl _
      · rw [hct] at hsorted
        exact (List.sorted_cons.mp hsorted).1 v h2

/-- Witness for C2 at a snapshot holding one valid record. -/
theorem C2_current_from_latest_snapshot_witness :
    TrackerMain.validEntries (some [("a", .obj ⟨.num 1, .num 1, .num 100⟩)]) ≠ []
    ∧ ∃ c,
      (TrackerMain.onLocationsValue (some [("a", .obj ⟨.num 1, .num 1, .num 100⟩)])
          ⟨[], none⟩).currentLocation = some c
      ∧ c ∈ TrackerMain.validEntries (some [("a", .obj ⟨.num 1, .num 1, .num 100⟩)])
      ∧ ∀ v ∈ TrackerMain.validEntries
          (some [("a", .obj ⟨.num 1, .num 1, .num 100⟩)]), v.tsKey ≤ c.tsKey :=
  ⟨by decide, (C2_current_from_latest_snapshot _ _).2 (by decide)⟩

/-- C5 counterexample: on a two-point path whose points are 100 m apart
and whose first and last points are 20 wall-clock seconds apart, the
implementation reports 36 km/h — it estimates elapsed time as 5 seconds
per recorded point — while distance divided by the actual elapsed time
(`specAverageSpeed`) is 18 km/h, refuting the claim as stated. -/
theorem C5_counterexample :
    TrackerMain.averageSpeed (fun _ _ => (100 : Rat))
      [((0 : Rat), (0 : Rat)), ((1 : Rat), (1 : Rat))] = 36
    ∧ specAverageSpeed (fun _ _ => (100 : Rat))
      [((0 : Rat), (0 : Rat)), ((1 : Rat), (1 : Rat))] 0 20 = 18
    ∧ (36 : Rat) ≠ 18 := by
  refine ⟨?_, ?_, by norm_num⟩
  · simp [TrackerMain.averageSpeed, TrackerMain.calculatePathDistance]
    norm_num
  · simp [specAverageSpeed, TrackerMain.calculatePathDistance]
    norm_num

/-- C5 amended: the main tracker `averageSpeed` divides the path distance
by an elapsed time estimated as 5 seconds per recorded point rather than
wall-clock time (and that estimate is positive whenever the path has at
least two points, so no division by zero occurs); for fewer than two
points the result is `0`; and the variant tracker `averageSpeed` returns
`0` whenever the history-looked-up timestamp difference between the first
and last path points is not positive.  All results are plain rationals, so
no exception, infinity or NaN can arise. -/
theorem C5_averageSpeed_elapsed (dist : Point → Point → Rat) (path : List Point)
    (hist : List TrackerAlt.HistLocation) (p0 pn : Point) (t0 t1 : Rat) :
    (2 ≤ path.length →
      TrackerMain.averageSpeed dist path
        = TrackerMain.calculatePathDistance dist path / 1000
            / (((path.length : Rat) * 5) / 3600)
      ∧ 0 < ((path.length : Rat) * 5) / 3600)
    ∧ (path.length < 2 → TrackerMain.averageSpeed dist path = 0)
    ∧ (path.head? = some p0 → path.getLast? = some pn →
        (hist.find? (TrackerAlt.matchesPoint p0)).bind (fun r => r.timestamp)
          = some t0 →
        (hist.find? (TrackerAlt.matchesPoint pn)).bind (fun r => r.timestamp)
          = some t1 →
        t1 - t0 ≤ 0 →
        TrackerAlt.averageSpeed dist path hist = 0) := by
  refine ⟨?_, ?_, ?_⟩
  · intro h
    have hlen : ¬ path.length < 2 := not_lt.mpr h
    have hl0 : 0 < path.length := lt_of_lt_of_le (by norm_num) h
    have hcast : (0 : Rat) < (path.length : Rat) := by exact_mod_cast hl0
    have hpos : 0 < ((path.length : Rat) * 5) / 3600 := by
      apply div_pos (mul_pos hcast (by norm_num)) (by norm_num)
    have hnotle : ¬ (((path.length : Rat) * 5) / 3600 ≤ 0) := not_le.mpr hpos
    refine ⟨?_, hpos⟩
    simp only [TrackerMain.averageSpeed, if_neg hlen, if_neg hnotle]
  · intro h
    simp [TrackerMain.averageSpeed, h]
  · intro h0 hn hf hl hle
    unfold TrackerAlt.averageSpeed
    by_cases hcond : path.length < 2 ∨ hist.isEmpty
    · rw [if_pos hcond]
    · rw [if_neg hcond]
      simp only [h0, hn, hf, hl]
      have hdiv : (t1 - t0) / 3600 ≤ (0 : Rat) := by
        rw [div_nonpos_iff]
        right
        exact ⟨hle, by norm_num⟩
      by_cases h00 : t0 = 0 ∨ t1 = 0
      · rw [if_pos h00]
      · rw [if_neg h00, if_pos hdiv]

/-- Witness for C5: the two-point 100 m path for the main tracker formula,
and a history whose looked-up timestamps go backwards for the variant
tracker. -/
theorem C5_averageSpeed_elapsed_witness :
    (TrackerMain.averageSpeed (fun _ _ => (100 : Rat))
        [((0 : Rat), (0 : Rat)), ((1 : Rat), (1 : Rat))]
      = TrackerMain.calculatePathDistance (fun _ _ => (100 : Rat))
          [((0 : Rat), (0 : Rat)), ((1 : Rat), (1 : Rat))] / 1000
          / (((([((0 : Rat), (0 : Rat)), ((1 : Rat), (1 : Rat))] : List Point).length : Rat) * 5) / 3600))
    ∧ TrackerAlt.averageSpeed (fun _ _ => (100 : Rat))
        [((0 : Rat), (0 : Rat)), ((1 : Rat), (1 : Rat))]
        [⟨some 0, some 0, some 30⟩, ⟨some 1, some 1, some 10⟩] = 0 :=
  ⟨((C5_averageSpeed_elapsed (fun _ _ => (100 : Rat))
      [((0 : Rat), (0 : Rat)), ((1 : Rat), (1 : Rat))]
      [⟨some 0, some 0, some 30⟩, ⟨some 1, some 1, some 10⟩]
      ((0 : Rat), (0 : Rat)) ((1 : Rat), (1 : Rat)) 30 10).1 (by decide)).1,
   (C5_averageSpeed_elapsed (fun _ _ => (100 : Rat))
      [((0 : Rat), (0 : Rat)), ((1 : Rat), (1 : Rat))]
      [⟨some 0, some 0, some 30⟩, ⟨some 1, some 1, some 10⟩]
      ((0 : Rat), (0 : Rat)) ((1 : Rat), (1 : Rat)) 30 10).2.2
     (by decide) (by decide) (by decide) (by decide) (by norm_num)⟩

/-- C7 counterexample: with tracking active and a last recorded point on
the path, an incoming update at latitude 0 that is 15 m away (farther than
the 10 m threshold) is not appended, because the truthiness guard
`locationToTrack?.lat && locationToTrack?.lng` rejects the zero
coordinate; this refutes the claimed if-and-only-if. -/
theorem C7_counterexample :
    TrackerMain.travelPathEffect (fun _ _ => (15 : Rat)) true
      (some ⟨some 0, some 50⟩) [((10 : Rat), (10 : Rat))]
      = [((10 : Rat), (10 : Rat))]
    ∧ (10 : Rat) < 15 := by decide

/-- C7 amended: while tracking is active and both coordinates of the
incoming update are truthy (present and nonzero), the point is appended if
and only if its distance from the last recorded point exceeds 10 m;
otherwise — including below-threshold updates and tracking-off states —
the path is unchanged.  The final conjunct replays the claimed scenario:
updates at 2 m, 15 m and 3 m from the last recorded point, of which only
the 15 m one is appended. -/
theorem C7_travelPath_append (dist : Point → Point → Rat) (prev : List Point)
    (la ln : Rat) (lastPt : Point) :
    (la ≠ 0 → ln ≠ 0 → prev.getLast? = some lastPt →
      (TrackerMain.travelPathEffect dist true (some ⟨some la, some ln⟩) prev
          = prev ++ [(la, ln)]
        ↔ 10 < dist lastPt (la, ln))
      ∧ (¬ 10 < dist lastPt (la, ln) →
          TrackerMain.travelPathEffect dist true (some ⟨some la, some ln⟩) prev
            = prev))
    ∧ TrackerMain.travelPathEffect dist false (some ⟨some la, some ln⟩) prev = prev
    ∧ (let d2 : Point → Point → Rat := fun p q =>
         if p = ((0 : Rat), (0 : Rat)) ∧ q = ((1 : Rat), (1 : Rat)) then 2
         else if p = ((0 : Rat), (0 : Rat)) ∧ q = ((2 : Rat), (2 : Rat)) then 15
         else 3
       TrackerMain.travelPathEffect d2 true (some ⟨some 3, some 3⟩)
         (TrackerMain.travelPathEffect d2 true (some ⟨some 2, some 2⟩)
           (TrackerMain.travelPathEffect d2 true (some ⟨some 1, some 1⟩)
             [((0 : Rat), (0 : Rat))]))
         = [((0 : Rat), (0 : Rat)), ((2 : Rat), (2 : Rat))]) := by
  refine ⟨?_, ?_, ?_⟩
  · intro hla hln hlast
    have hne : prev ≠ prev ++ [(la, ln)] := by
      intro he
      have := congrArg List.length he
      simp at this
    have heval : TrackerMain.travelPathEffect dist true (some ⟨some la, some ln⟩) prev
        = if 10 < dist lastPt (la, ln) then prev ++ [(la, ln)] else prev := by
      simp [TrackerMain.travelPathEffect, hla, hln, hlast]
    constructor
    · rw [heval]
      constructor
      · intro happ
        by_contra hnd
        rw [if_neg hnd] at happ
        exact hne happ
      · intro hgt
        rw [if_pos hgt]
    · intro hngt
      rw [heval, if_neg hngt]
  · rfl
  · decide

/-- Witness for C7: with a one-point path and nonzero coordinates, a 15 m
update is appended and a 2 m update is not. -/
theorem C7_travelPath_append_witness :
    TrackerMain.travelPathEffect (fun _ _ => (15 : Rat)) true
      (some ⟨some 3, some 4⟩) [((0 : Rat), (0 : Rat))]
      = [((0 : Rat), (0 : Rat))] ++ [((3 : Rat), (4 : Rat))]
    ∧ TrackerMain.travelPathEffect (fun _ _ => (2 : Rat)) true
      (some ⟨some 3, some 4⟩) [((0 : Rat), (0 : Rat))]
      = [((0 : Rat), (0 : Rat))] :=
  ⟨(((C7_travelPath_append (fun _ _ => (15 : Rat)) [((0 : Rat), (0 : Rat))] 3 4
      ((0 : Rat), (0 : Rat))).1 (by norm_num) (by norm_num) (by decide)).1).mpr
     (by norm_num),
   ((C7_travelPath_append (fun _ _ => (2 : Rat)) [((0 : Rat), (0 : Rat))] 3 4
      ((0 : Rat), (0 : Rat))).1 (by norm_num) (by norm_num) (by decide)).2
     (by norm_num)⟩
